import Mathlib

/-!
Shallow embedding of the publish automation engine of the
xiaohongshu-recipe-mcp repository (src/publish_playwright.py and
src/server.py).

The browser run `publish_with_playwright` is modelled as a pure function
from the call arguments and an abstract environment (the live DOM's match
count per selector string, whether login succeeds, whether screenshots
succeed, and at which poll the page gets closed externally) to an outcome
(normal return value, or which Python exception escapes) together with the
ordered trace of externally visible effects (browser launch/close, element
clicks, file uploads, text fills, screenshots, warnings, waits).

The image staging batch of `publish_to_xiaohongshu` (server.py) is
modelled over abstract per-item download results: `asyncio.gather` with
`return_exceptions=True` yields a list whose items are either a returned
path string, Python `None`, or an exception object; the caller keeps
`isinstance(r, str) and r`, i.e. non-empty strings, in order.
-/

/-- Result of one `download_image` task inside the `asyncio.gather` batch
(server.py lines 563-567): a returned string path, a returned `None`, or a
raised exception captured by `return_exceptions=True`. -/
inductive DownloadResult where
  | path (p : String)
  | failed
  | exn
deriving DecidableEq

/-- `local_image_paths = [r for r in results if isinstance(r, str) and r]`
(server.py lines 564-567): keep the non-empty string results, in order. -/
def local_image_paths (results : List DownloadResult) : List String :=
  results.filterMap (fun r =>
    match r with
    | DownloadResult.path p => if p = "" then none else some p
    | DownloadResult.failed => none
    | DownloadResult.exn => none)

/-- Spec-side definition ("the returned local-path list consists of exactly
the successful items in the original relative order of the survivors"):
the successfully returned paths, in input order. -/
def spec_survivor_paths (results : List DownloadResult) : List String :=
  results.filterMap (fun r =>
    match r with
    | DownloadResult.path p => some p
    | DownloadResult.failed => none
    | DownloadResult.exn => none)

/-- A result is either a failure or a non-empty path. This always holds
for `download_image`, which returns `None` on failure or a path created
with `os.path.join(save_dir, f"{uuid4().hex}.{ext}")`, never the empty
string (server.py lines 341-398). -/
def noEmptyPath : DownloadResult → Bool
  | DownloadResult.path p => !(p == "")
  | DownloadResult.failed => true
  | DownloadResult.exn => true

/-- Externally visible effects of a publish run, in program order. -/
inductive Ev where
  | launchBrowser
  | closeBrowser
  | goto (url : String)
  | waitMs (n : Nat)
  | clickSel (sel : String)
  | setFiles (sel : String) (files : List String)
  | fillTitle (sel : String) (s : String)
  | insertText (s : String)
  | screenshot (label : String)
  | warn (msg : String)
deriving DecidableEq

/-- How a run of `publish_with_playwright` terminates: a returned result
string, or the Python exception class that escapes. -/
inductive Outcome where
  | ok (msg : String)
  | valueError (msg : String)
  | runtimeError (msg : String)
  | otherError (msg : String)
deriving DecidableEq

/-- Arguments of `publish_with_playwright` (publish_playwright.py line 73). -/
structure Args where
  title : String
  content : String
  image_paths : List String
  video_path : Option String
  cover_image_paths : List String
  save_draft : Bool

/-- Abstract run environment: the DOM as a match count per selector string
(selectors absent from the list match 0 elements), whether
`login_xiaohongshu` succeeds, whether `page.screenshot` succeeds, and the
poll index of the draft-hold loop at which `page.is_closed()` first
becomes true (`none` = the page is never closed externally). -/
structure Env where
  dom : List (String × Nat)
  loginOk : Bool
  screenshotOk : Bool
  pageClosedAtPoll : Option Nat

/-- `page.locator(sel).count()` against the abstract DOM. -/
def domCount (dom : List (String × Nat)) (sel : String) : Nat :=
  (dom.lookup sel).getD 0

/-- The shared shape of every fallback-selector loop in the source
(`for selector in candidates: if locator(selector).count() > 0: use it;
break`): the first candidate with at least one match in the live DOM. -/
def resolveSelector (dom : List (String × Nat)) (cands : List String) : Option String :=
  cands.find? (fun s => decide (0 < domCount dom s))

/-- `safe_title = title[:18] if len(title) > 18 else title`
(publish_playwright.py line 210). -/
def safeTitle (title : String) : String :=
  if title.length > 18 then title.take 18 else title

def publishUrl : String := "https://creator.xiaohongshu.com/publish/publish"

def fileInputSel : String := "input[type=\"file\"]"

def fileInputNth1Sel : String := "input[type=\"file\"] >> nth=1"

def tabVideoSel : String := "div.tab >> text=\"上传视频\""

def tabImageSel : String := "div.tab >> text=\"上传图文\""

def tabImageAltSel : String := "text=\"上传图文\""

/-- Dedicated cover-upload candidate selectors
(publish_playwright.py lines 150-155). -/
def cover_selectors : List String :=
  ["[class*=\"cover\"] input[type=\"file\"]",
   "[class*=\"Cover\"] input[type=\"file\"]",
   ".cover-image input[type=\"file\"]",
   ".upload-cover input[type=\"file\"]"]

/-- Title-field candidate selectors (publish_playwright.py lines 215-219). -/
def title_selectors : List String :=
  ["input.c-input_inner",
   "input[placeholder*=\"标题\"]",
   ".title-input input"]

/-- Content-editor candidate selectors (publish_playwright.py lines 234-238). -/
def content_selectors : List String :=
  ["#post-textarea",
   ".editor-content",
   "[contenteditable=\"true\"]"]

def draftBtnSel : String := "button:has-text(\"暂存离开\"), button:has-text(\"存草稿\")"

def publishBtnSel : String := "button.publishBtn"

def publishBtnAltSel : String := "button:has-text(\"发布\")"

def warnNoTitleMsg : String := "警告：未找到合适的标题输入框！"

def warnNoContentMsg : String := "警告：未找到合适的正文输入框！"

def warnNoCoverMsg : String := "⚠️ 未找到封面图上传入口，跳过封面图（不影响视频发布）"

def warnNoImageTabMsg : String := "未找到\x27上传图文\x27标签，可能当前页面已经是图文模式"

def noMediaMsg : String := "没有需要上传的图片或视频素材"

def loginFailedMsg : String := "登录失败，无法发布。"

def noFileInputMsg : String := "未找到上传图文的 input 元素"

/-- `take_screenshot` returns the saved path, or the empty string when
`page.screenshot` raises (publish_playwright.py lines 58-70); the
timestamped file name is abstracted to the label. -/
def screenshotResult (env : Env) (label : String) : String :=
  if env.screenshotOk then "publish_screenshots/" ++ label ++ ".png" else ""

/-- `page.is_closed()` at the given poll of the draft-hold loop. -/
def pageIsClosed (env : Env) (poll : Nat) : Bool :=
  match env.pageClosedAtPoll with
  | none => false
  | some k => decide (k ≤ poll)

/-- The draft-mode hold loop (publish_playwright.py lines 279-284):
`for _ in range(30): if page.is_closed(): break; wait_for_timeout(10000)`,
as the list of wait effects it performs, with `n` iterations left and `i`
the current poll index. -/
def draftHoldLoop (env : Env) : Nat → Nat → List Ev
  | 0, _ => []
  | Nat.succ n, i =>
    if pageIsClosed env i then []
    else Ev.waitMs 10000 :: draftHoldLoop env n (i + 1)

/-- Number of 10-second waits the hold loop performs: 30 when the page is
never closed, else the closing poll index capped at 30. -/
def holdPollCount (closedAt : Option Nat) : Nat :=
  match closedAt with
  | none => 30
  | some k => min k 30

/-- Success message construction (publish_playwright.py lines 288-292). -/
def successMsg (save_draft : Bool) (shot : String) : String :=
  let action := if save_draft then "暂存草稿" else "发布"
  let base := "Playwright 模拟点击" ++ action ++ "完成！"
  if shot = "" then base
  else base ++ "\n📸 " ++ action ++ "结果截图已保存至: " ++ shot

/-- Manual-completion message construction
(publish_playwright.py lines 296-299). -/
def manualMsg (save_draft : Bool) (shot : String) : String :=
  let action := if save_draft then "暂存离开" else "发布"
  let base := "未找到" ++ action ++ "按钮，请手动点击操作。"
  if shot = "" then base
  else base ++ "\n📸 当前页面截图已保存至: " ++ shot

/-- The terminal-action button selector the code ends up querying
(publish_playwright.py lines 259-266): the draft set when `save_draft`,
else `button.publishBtn` when it matches, else the has-text fallback. -/
def submitSel (env : Env) (save_draft : Bool) : String :=
  if save_draft then draftBtnSel
  else if 0 < domCount env.dom publishBtnSel then publishBtnSel
  else publishBtnAltSel

/-- Video-tab click (publish_playwright.py lines 133-136). -/
def videoTabEvs (env : Env) : List Ev :=
  if 0 < domCount env.dom tabVideoSel then
    [Ev.clickSel tabVideoSel, Ev.waitMs 1000]
  else []

/-- Image-tab click with its fallback selector
(publish_playwright.py lines 181-195). -/
def imageTabEvs (env : Env) : List Ev :=
  if 0 < domCount env.dom tabImageSel then
    [Ev.clickSel tabImageSel, Ev.waitMs 1000]
  else if 0 < domCount env.dom tabImageAltSel then
    [Ev.clickSel tabImageAltSel, Ev.waitMs 1000]
  else
    [Ev.warn warnNoImageTabMsg]

/-- Cover-image upload (publish_playwright.py lines 145-176): the first
resolving dedicated cover selector; else the second generic file input if
the page has at least two; else a logged skip, never fatal. -/
def coverUploadEvs (env : Env) : List String → List Ev
  | [] => []
  | c :: _ =>
    match resolveSelector env.dom cover_selectors with
    | some sel => [Ev.setFiles sel [c], Ev.waitMs 2000]
    | none =>
      if 2 ≤ domCount env.dom fileInputSel then
        [Ev.setFiles fileInputNth1Sel [c], Ev.waitMs 2000]
      else
        [Ev.warn warnNoCoverMsg]

/-- Step 3 of the run (publish_playwright.py lines 129-203): select the
upload mode tab and upload the media files. `Except.error` carries the
escaping exception and the effects performed before it: in image mode a
missing `input[type="file"]` raises `RuntimeError` (lines 202-203); in
video mode the unguarded `file_input.first.set_input_files` (line 139)
raises a Playwright timeout when no file input exists. -/
def uploadPhase (env : Env) (args : Args) : Except (Outcome × List Ev) (List Ev) :=
  match args.video_path with
  | some v =>
    if 0 < domCount env.dom fileInputSel then
      Except.ok (videoTabEvs env ++ [Ev.setFiles fileInputSel [v], Ev.waitMs 15000]
                 ++ coverUploadEvs env args.cover_image_paths)
    else
      Except.error (Outcome.otherError "Timeout waiting for file input", videoTabEvs env)
  | none =>
    if 0 < domCount env.dom fileInputSel then
      Except.ok (imageTabEvs env ++ [Ev.setFiles fileInputSel args.image_paths, Ev.waitMs 5000])
    else
      Except.error (Outcome.runtimeError noFileInputMsg, imageTabEvs env)

/-- Step 4, title entry (publish_playwright.py lines 209-230): fill the
first resolving title selector with the truncated title, or warn. -/
def fillTitlePhase (env : Env) (title : String) : List Ev :=
  match resolveSelector env.dom title_selectors with
  | some sel => [Ev.fillTitle sel (safeTitle title)]
  | none => [Ev.warn warnNoTitleMsg]

/-- Step 4, body entry (publish_playwright.py lines 233-251): click the
first resolving content selector and insert the text at keyboard level,
or warn. -/
def fillContentPhase (env : Env) (content : String) : List Ev :=
  match resolveSelector env.dom content_selectors with
  | some sel => [Ev.clickSel sel, Ev.waitMs 500, Ev.insertText content]
  | none => [Ev.warn warnNoContentMsg]

/-- Step 5 (publish_playwright.py lines 258-300): query the terminal-action
button; if it matches, click, capture post-submit evidence and (draft mode)
hold; otherwise capture evidence and return the manual-completion
message. Both branches return normally. -/
def submitLabel (save_draft : Bool) : String :=
  if save_draft then "after_save_draft" else "after_publish"

def submitPhase (env : Env) (save_draft : Bool) : Outcome × List Ev :=
  if 0 < domCount env.dom (submitSel env save_draft) then
    (Outcome.ok (successMsg save_draft (screenshotResult env (submitLabel save_draft))),
     [Ev.clickSel (submitSel env save_draft), Ev.waitMs 8000,
      Ev.screenshot (submitLabel save_draft)]
     ++ (if save_draft then draftHoldLoop env 30 0 else []))
  else
    (Outcome.ok (manualMsg save_draft (screenshotResult env "no_publish_btn")),
     [Ev.screenshot "no_publish_btn"])

/-- The whole run (publish_playwright.py lines 73-307). The media
precondition is checked before `async_playwright` starts any browser
(lines 83-84). On login failure the code screenshots, closes the browser
and raises (lines 119-122); the `except` block screenshots again (line
304) and the `finally` block closes again (line 307). Exceptions from the
upload step reach the same `except`/`finally` pair. Normal returns pass
only through `finally`. -/
def publish_with_playwright (args : Args) (env : Env) : Outcome × List Ev :=
  if args.image_paths = [] ∧ args.video_path = none then
    (Outcome.valueError noMediaMsg, [])
  else if env.loginOk = false then
    (Outcome.runtimeError loginFailedMsg,
     [Ev.launchBrowser, Ev.screenshot "login_failed", Ev.closeBrowser,
      Ev.screenshot "error", Ev.closeBrowser])
  else
    match uploadPhase env args with
    | Except.error (o, evs) =>
      (o, Ev.launchBrowser :: Ev.goto publishUrl :: Ev.waitMs 3000 ::
          evs ++ [Ev.screenshot "error", Ev.closeBrowser])
    | Except.ok upEvs =>
      ((submitPhase env args.save_draft).1,
       Ev.launchBrowser :: Ev.goto publishUrl :: Ev.waitMs 3000 ::
       upEvs ++ [Ev.waitMs 3000] ++ fillTitlePhase env args.title
       ++ fillContentPhase env args.content
       ++ [Ev.waitMs 2000, Ev.screenshot "before_publish"]
       ++ (submitPhase env args.save_draft).2 ++ [Ev.closeBrowser])

/-- Bundled placeholder image (server.py line 573). -/
def test_lemon_path : String := "test_lemon.jpg"

def zeroDownloadMsg : String := "没有成功下载到任何图片或视频，无法发布笔记"

/-- What the image-mode tail of `publish_to_xiaohongshu` decides to do
with the filtered batch (server.py lines 570-580): publish with the
surviving paths; on an empty batch substitute the bundled placeholder if
it exists on disk, else raise the fatal no-media `ValueError`. -/
inductive StagePlan where
  | publishImages (paths : List String)
  | noMedia (msg : String)
deriving DecidableEq

/-- server.py lines 570-577. -/
def imageFallbackPlan (localPaths : List String) (testImgExists : Bool) : StagePlan :=
  if localPaths = [] then
    if testImgExists then StagePlan.publishImages [test_lemon_path]
    else StagePlan.noMedia zeroDownloadMsg
  else StagePlan.publishImages localPaths

/-- The image-mode tail of `publish_to_xiaohongshu` (server.py lines
557-581): filter the gather batch, apply the placeholder fallback, and
either raise the `ValueError` (no browser is ever launched) or call
`publish_with_playwright` on the surviving local paths. -/
def publish_to_xiaohongshu (title content : String) (results : List DownloadResult)
    (testImgExists : Bool) (save_draft : Bool) (env : Env) : Outcome × List Ev :=
  match imageFallbackPlan (local_image_paths results) testImgExists with
  | StagePlan.noMedia msg => (Outcome.valueError msg, [])
  | StagePlan.publishImages ps =>
    publish_with_playwright ⟨title, content, ps, none, [], save_draft⟩ env

/-- Count of one effect in a trace. -/
def countEvent (e : Ev) (evs : List Ev) : Nat :=
  evs.countP (fun x => decide (x = e))

/-- Whether an outcome is a normal return. -/
def Outcome.isOk : Outcome → Bool
  | Outcome.ok _ => true
  | _ => false

/-! ## Helper lemmas -/

theorem countEvent_nil (e : Ev) : countEvent e [] = 0 := rfl

theorem countEvent_append (e : Ev) (l1 l2 : List Ev) :
    countEvent e (l1 ++ l2) = countEvent e l1 + countEvent e l2 :=
  List.countP_append _ _ _

theorem countClose_videoTabEvs (env : Env) :
    countEvent Ev.closeBrowser (videoTabEvs env) = 0 := by
  unfold videoTabEvs
  split <;> simp [countEvent]

theorem countClose_imageTabEvs (env : Env) :
    countEvent Ev.closeBrowser (imageTabEvs env) = 0 := by
  unfold imageTabEvs
  split
  · simp [countEvent]
  · split <;> simp [countEvent]

theorem countClose_coverUploadEvs (env : Env) (covers : List String) :
    countEvent Ev.closeBrowser (coverUploadEvs env covers) = 0 := by
  unfold coverUploadEvs
  split
  · rfl
  · split
    · simp [countEvent]
    · split <;> simp [countEvent]

theorem countClose_fillTitlePhase (env : Env) (t : String) :
    countEvent Ev.closeBrowser (fillTitlePhase env t) = 0 := by
  unfold fillTitlePhase
  split <;> simp [countEvent]

theorem countClose_fillContentPhase (env : Env) (c : String) :
    countEvent Ev.closeBrowser (fillContentPhase env c) = 0 := by
  unfold fillContentPhase
  split <;> simp [countEvent]

theorem countClose_draftHoldLoop (env : Env) :
    ∀ n i, countEvent Ev.closeBrowser (draftHoldLoop env n i) = 0 := by
  intro n
  induction n with
  | zero => intro i; rfl
  | succ n ih =>
    intro i
    unfold draftHoldLoop
    split
    · rfl
    · simp [countEvent, List.countP_cons] at ih ⊢
      exact ih (i + 1)

theorem countClose_submitPhase (env : Env) (sd : Bool) :
    countEvent Ev.closeBrowser (submitPhase env sd).2 = 0 := by
  have h30 := countClose_draftHoldLoop env 30 0
  unfold submitPhase
  split
  · cases sd <;> simp_all [countEvent, List.countP_append, List.countP_cons]
  · simp [countEvent]

theorem countClose_uploadPhase_ok (env : Env) (args : Args) (evs : List Ev)
    (h : uploadPhase env args = Except.ok evs) :
    countEvent Ev.closeBrowser evs = 0 := by
  unfold uploadPhase at h
  split at h
  · split at h
    · cases h with
      | refl =>
        have h1 := countClose_videoTabEvs env
        have h2 := countClose_coverUploadEvs env args.cover_image_paths
        simp_all [countEvent, List.countP_append, List.countP_cons]
    · cases h
  · split at h
    · cases h with
      | refl =>
        have h1 := countClose_imageTabEvs env
        simp_all [countEvent, List.countP_append, List.countP_cons]
    · cases h

theorem countClose_uploadPhase_err (env : Env) (args : Args) (o : Outcome) (evs : List Ev)
    (h : uploadPhase env args = Except.error (o, evs)) :
    countEvent Ev.closeBrowser evs = 0 := by
  unfold uploadPhase at h
  split at h
  · split at h
    · cases h
    · cases h with
      | refl => exact countClose_videoTabEvs env
  · split at h
    · cases h
    · cases h with
      | refl => exact countClose_imageTabEvs env

theorem count10_videoTabEvs (env : Env) :
    countEvent (Ev.waitMs 10000) (videoTabEvs env) = 0 := by
  unfold videoTabEvs
  split <;> simp [countEvent]

theorem count10_imageTabEvs (env : Env) :
    countEvent (Ev.waitMs 10000) (imageTabEvs env) = 0 := by
  unfold imageTabEvs
  split
  · simp [countEvent]
  · split <;> simp [countEvent]

theorem count10_coverUploadEvs (env : Env) (covers : List String) :
    countEvent (Ev.waitMs 10000) (coverUploadEvs env covers) = 0 := by
  unfold coverUploadEvs
  split
  · rfl
  · split
    · simp [countEvent]
    · split <;> simp [countEvent]

theorem count10_fillTitlePhase (env : Env) (t : String) :
    countEvent (Ev.waitMs 10000) (fillTitlePhase env t) = 0 := by
  unfold fillTitlePhase
  split <;> simp [countEvent]

theorem count10_fillContentPhase (env : Env) (c : String) :
    countEvent (Ev.waitMs 10000) (fillContentPhase env c) = 0 := by
  unfold fillContentPhase
  split <;> simp [countEvent]

theorem count10_uploadPhase_ok (env : Env) (args : Args) (evs : List Ev)
    (h : uploadPhase env args = Except.ok evs) :
    countEvent (Ev.waitMs 10000) evs = 0 := by
  unfold uploadPhase at h
  split at h
  · split at h
    · cases h with
      | refl =>
        have h1 := count10_videoTabEvs env
        have h2 := count10_coverUploadEvs env args.cover_image_paths
        simp_all [countEvent, List.countP_append, List.countP_cons]
    · cases h
  · split at h
    · cases h with
      | refl =>
        have h1 := count10_imageTabEvs env
        simp_all [countEvent, List.countP_append, List.countP_cons]
    · cases h

theorem count10_uploadPhase_err (env : Env) (args : Args) (o : Outcome) (evs : List Ev)
    (h : uploadPhase env args = Except.error (o, evs)) :
    countEvent (Ev.waitMs 10000) evs = 0 := by
  unfold uploadPhase at h
  split at h
  · split at h
    · cases h
    · cases h with
      | refl => exact count10_videoTabEvs env
  · split at h
    · cases h
    · cases h with
      | refl => exact count10_imageTabEvs env

theorem draftHoldLoop_count10 (env : Env) :
    ∀ n i, countEvent (Ev.waitMs 10000) (draftHoldLoop env n i) =
      match env.pageClosedAtPoll with
      | none => n
      | some k => min (k - i) n := by
  intro n
  induction n with
  | zero =>
    intro i
    cases h : env.pageClosedAtPoll <;> simp [draftHoldLoop, countEvent]
  | succ n ih =>
    intro i
    unfold draftHoldLoop
    cases h : env.pageClosedAtPoll with
    | none =>
      have hcl : pageIsClosed env i = false := by simp [pageIsClosed, h]
      rw [hcl, if_neg Bool.false_ne_true]
      have := ih (i + 1)
      rw [h] at this
      simp [countEvent, List.countP_cons] at this ⊢
      omega
    | some k =>
      by_cases hk : k ≤ i
      · have hcl : pageIsClosed env i = true := by simp [pageIsClosed, h, hk]
        rw [hcl]
        simp [countEvent]
        omega
      · have hcl : pageIsClosed env i = false := by simp [pageIsClosed, h]; omega
        rw [hcl, if_neg Bool.false_ne_true]
        have := ih (i + 1)
        rw [h] at this
        simp [countEvent, List.countP_cons] at this ⊢
        omega

theorem count10_draftHold30 (env : Env) :
    countEvent (Ev.waitMs 10000) (draftHoldLoop env 30 0) =
      holdPollCount env.pageClosedAtPoll := by
  have h := draftHoldLoop_count10 env 30 0
  unfold holdPollCount
  cases hc : env.pageClosedAtPoll <;> rw [hc] at h <;> simpa using h

theorem submitPhase_isOk (env : Env) (sd : Bool) :
    ((submitPhase env sd).1).isOk = true := by
  unfold submitPhase
  split <;> simp [Outcome.isOk]

theorem run_image_ok (args : Args) (env : Env)
    (hlogin : env.loginOk = true) (hv : args.video_path = none)
    (hne : args.image_paths ≠ []) (hfile : 0 < domCount env.dom fileInputSel) :
    publish_with_playwright args env =
      ((submitPhase env args.save_draft).1,
       Ev.launchBrowser :: Ev.goto publishUrl :: Ev.waitMs 3000 ::
       (imageTabEvs env ++ [Ev.setFiles fileInputSel args.image_paths, Ev.waitMs 5000])
       ++ [Ev.waitMs 3000] ++ fillTitlePhase env args.title
       ++ fillContentPhase env args.content
       ++ [Ev.waitMs 2000, Ev.screenshot "before_publish"]
       ++ (submitPhase env args.save_draft).2 ++ [Ev.closeBrowser]) := by
  have hnc : ¬(args.image_paths = [] ∧ args.video_path = none) := fun hc => hne hc.1
  have hup : uploadPhase env args =
      Except.ok (imageTabEvs env ++ [Ev.setFiles fileInputSel args.image_paths, Ev.waitMs 5000]) := by
    unfold uploadPhase
    rw [hv]
    simp [hfile]
  unfold publish_with_playwright
  rw [if_neg hnc, hlogin, if_neg (by simp), hup]

theorem run_image_err (args : Args) (env : Env)
    (hlogin : env.loginOk = true) (hv : args.video_path = none)
    (hne : args.image_paths ≠ []) (hfile : domCount env.dom fileInputSel = 0) :
    publish_with_playwright args env =
      (Outcome.runtimeError noFileInputMsg,
       Ev.launchBrowser :: Ev.goto publishUrl :: Ev.waitMs 3000 ::
       imageTabEvs env ++ [Ev.screenshot "error", Ev.closeBrowser]) := by
  have hnc : ¬(args.image_paths = [] ∧ args.video_path = none) := fun hc => hne hc.1
  have hup : uploadPhase env args =
      Except.error (Outcome.runtimeError noFileInputMsg, imageTabEvs env) := by
    unfold uploadPhase
    rw [hv]
    simp [hfile]
  unfold publish_with_playwright
  rw [if_neg hnc, hlogin, if_neg (by simp), hup]

theorem countEvent_cons (e x : Ev) (l : List Ev) :
    countEvent e (x :: l) = countEvent e l + (if x = e then 1 else 0) := by
  simp [countEvent, List.countP_cons]

theorem run_login_failed (args : Args) (env : Env)
    (hm : ¬(args.image_paths = [] ∧ args.video_path = none))
    (hl : env.loginOk = false) :
    publish_with_playwright args env =
      (Outcome.runtimeError loginFailedMsg,
       [Ev.launchBrowser, Ev.screenshot "login_failed", Ev.closeBrowser,
        Ev.screenshot "error", Ev.closeBrowser]) := by
  unfold publish_with_playwright
  rw [if_neg hm, if_pos hl]

theorem run_video_ok (args : Args) (env : Env) (v : String)
    (hlogin : env.loginOk = true) (hv : args.video_path = some v)
    (hfile : 0 < domCount env.dom fileInputSel) :
    publish_with_playwright args env =
      ((submitPhase env args.save_draft).1,
       Ev.launchBrowser :: Ev.goto publishUrl :: Ev.waitMs 3000 ::
       (videoTabEvs env ++ [Ev.setFiles fileInputSel [v], Ev.waitMs 15000]
        ++ coverUploadEvs env args.cover_image_paths)
       ++ [Ev.waitMs 3000] ++ fillTitlePhase env args.title
       ++ fillContentPhase env args.content
       ++ [Ev.waitMs 2000, Ev.screenshot "before_publish"]
       ++ (submitPhase env args.save_draft).2 ++ [Ev.closeBrowser]) := by
  have hnc : ¬(args.image_paths = [] ∧ args.video_path = none) := by
    rintro ⟨-, h2⟩
    rw [hv] at h2
    cases h2
  have hup : uploadPhase env args =
      Except.ok (videoTabEvs env ++ [Ev.setFiles fileInputSel [v], Ev.waitMs 15000]
                 ++ coverUploadEvs env args.cover_image_paths) := by
    unfold uploadPhase
    rw [hv]
    simp [hfile]
  unfold publish_with_playwright
  rw [if_neg hnc, hlogin, if_neg (by simp), hup]

/-! ## Claim theorems -/

/-- C1: for every call to `publish_with_playwright`, when the title field
resolves, the string filled into it is the truncated `safe_title`: the
first 18 characters of the title when its length exceeds 18, the title
unchanged otherwise. -/
theorem title_truncation_staged (env : Env) (title sel : String)
    (h : resolveSelector env.dom title_selectors = some sel) :
    fillTitlePhase env title = [Ev.fillTitle sel (safeTitle title)] ∧
    (18 < title.length → safeTitle title = title.take 18) ∧
    (title.length ≤ 18 → safeTitle title = title) := by
  refine ⟨by simp [fillTitlePhase, h], fun hl => ?_, fun hl => ?_⟩
  · simp [safeTitle, hl]
  · have hng : ¬ title.length > 18 := by omega
    simp [safeTitle, hng]

/-- Witness for C1: a 20-character title is staged as its first 18
characters. -/
theorem title_truncation_staged_witness :
    safeTitle "abcdefghijklmnopqrst" = ("abcdefghijklmnopqrst" : String).take 18 :=
  (title_truncation_staged ⟨[("input.c-input_inner", 1)], true, true, none⟩
    "abcdefghijklmnopqrst" "input.c-input_inner" (by decide)).2.1 (by decide)

/-- C3: with empty `image_paths` and absent `video_path`,
`publish_with_playwright` raises the no-media `ValueError` and its trace
contains no browser launch: staging fails before any browser is opened. -/
theorem media_precondition_valueerror (args : Args) (env : Env)
    (h1 : args.image_paths = []) (h2 : args.video_path = none) :
    (publish_with_playwright args env).1 = Outcome.valueError noMediaMsg ∧
    Ev.launchBrowser ∉ (publish_with_playwright args env).2 := by
  have hrun : publish_with_playwright args env = (Outcome.valueError noMediaMsg, []) := by
    unfold publish_with_playwright
    rw [if_pos ⟨h1, h2⟩]
  rw [hrun]
  exact ⟨rfl, by simp⟩

/-- Witness for C3 at a concrete empty-media call. -/
theorem media_precondition_valueerror_witness :
    (publish_with_playwright ⟨"t", "c", [], none, [], false⟩ ⟨[], true, true, none⟩).1
      = Outcome.valueError noMediaMsg ∧
    Ev.launchBrowser ∉
      (publish_with_playwright ⟨"t", "c", [], none, [], false⟩ ⟨[], true, true, none⟩).2 :=
  media_precondition_valueerror _ _ rfl rfl

/-- C4: when every successful download returns a non-empty path (as
`download_image` does), the filtered batch is exactly the successful items
in their original relative order, and replacing any single item by a
failure (returned `None` or raised exception) removes only that item,
never a sibling. -/
theorem download_isolation (results : List DownloadResult)
    (h : ∀ r ∈ results, noEmptyPath r = true) :
    local_image_paths results = spec_survivor_paths results ∧
    (∀ l1 l2 : List DownloadResult,
      local_image_paths (l1 ++ DownloadResult.failed :: l2) = local_image_paths (l1 ++ l2)) ∧
    (∀ l1 l2 : List DownloadResult,
      local_image_paths (l1 ++ DownloadResult.exn :: l2) = local_image_paths (l1 ++ l2)) := by
  refine ⟨?_, ?_, ?_⟩
  · induction results with
    | nil => rfl
    | cons r t ih =>
      have hr := h r (by simp)
      have ht : ∀ x ∈ t, noEmptyPath x = true := fun x hx => h x (by simp [hx])
      cases r with
      | path p =>
        have hp : ¬(p = "") := by simpa [noEmptyPath] using hr
        simp [local_image_paths, spec_survivor_paths, hp] at ih ⊢
        exact ih ht
      | failed =>
        simp [local_image_paths, spec_survivor_paths] at ih ⊢
        exact ih ht
      | exn =>
        simp [local_image_paths, spec_survivor_paths] at ih ⊢
        exact ih ht
  · intro l1 l2
    simp [local_image_paths, List.filterMap_append]
  · intro l1 l2
    simp [local_image_paths, List.filterMap_append]

/-- Witness for C4 at the spec's example: item 2 of 5 fails, the staged
list is the 4 survivors in order. -/
theorem download_isolation_witness :
    local_image_paths
        [DownloadResult.path "p1.jpg", DownloadResult.failed, DownloadResult.path "p3.jpg",
         DownloadResult.path "p4.jpg", DownloadResult.path "p5.jpg"]
      = spec_survivor_paths
        [DownloadResult.path "p1.jpg", DownloadResult.failed, DownloadResult.path "p3.jpg",
         DownloadResult.path "p4.jpg", DownloadResult.path "p5.jpg"] :=
  (download_isolation _ (by decide)).1

/-- C6: for a fixed ordered candidate list (the shape used for the title
field, content editor and cover-image input), when every candidate before
position `n` has zero matches and the candidate at position `n` has at
least one, resolution returns exactly the candidate at position `n`. -/
theorem selector_fallback_first_match (dom : List (String × Nat)) (cands : List String)
    (n : Nat) (hn : n < cands.length)
    (hmiss : ∀ s ∈ List.take n cands, domCount dom s = 0)
    (hhit : 0 < domCount dom (cands.get ⟨n, hn⟩)) :
    resolveSelector dom cands = some (cands.get ⟨n, hn⟩) := by
  induction cands generalizing n with
  | nil => exact absurd hn (by simp)
  | cons c cs ih =>
    cases n with
    | zero =>
      simp only [List.get] at hhit
      simp [resolveSelector, List.find?, hhit]
    | succ m =>
      have hc : domCount dom c = 0 := hmiss c (by simp [List.take_succ_cons])
      have hm' : ∀ s ∈ List.take m cs, domCount dom s = 0 := fun s hs =>
        hmiss s (by simp [List.take_succ_cons, hs])
      have hm2 : m < cs.length := by simpa using hn
      have hhit' : 0 < domCount dom (cs.get ⟨m, hm2⟩) := by simpa using hhit
      have := ih m hm2 hm' hhit'
      simp [resolveSelector, List.find?, hc] at this ⊢
      exact this

/-- Witness for C6: a DOM where only the second title candidate matches
resolves to that candidate. -/
theorem selector_fallback_first_match_witness :
    resolveSelector [("input[placeholder*=\"标题\"]", 1)] title_selectors =
      some (title_selectors.get ⟨1, by decide⟩) :=
  selector_fallback_first_match _ title_selectors 1 (by decide) (by decide) (by decide)

/-- C5: when the run reaches the submitting step (login succeeded, image
mode, file input present) and no candidate for the terminal-action button
resolves, `publish_with_playwright` returns normally with the
please-complete-manually message instead of raising or failing. -/
theorem missing_submit_button_returns_manual (args : Args) (env : Env)
    (hlogin : env.loginOk = true) (hv : args.video_path = none)
    (hne : args.image_paths ≠ [])
    (hfile : 0 < domCount env.dom fileInputSel)
    (hbtn : domCount env.dom (submitSel env args.save_draft) = 0) :
    (publish_with_playwright args env).1 =
      Outcome.ok (manualMsg args.save_draft (screenshotResult env "no_publish_btn")) := by
  rw [run_image_ok args env hlogin hv hne hfile]
  show (submitPhase env args.save_draft).1 = _
  unfold submitPhase
  rw [if_neg (by simp [hbtn])]

/-- Witness for C5: a DOM with a file input but no publish button yields
the manual-completion result. -/
theorem missing_submit_button_returns_manual_witness :
    (publish_with_playwright ⟨"t", "c", ["a.jpg"], none, [], false⟩
       ⟨[(fileInputSel, 1)], true, true, none⟩).1 =
      Outcome.ok (manualMsg false
        (screenshotResult ⟨[(fileInputSel, 1)], true, true, none⟩ "no_publish_btn")) :=
  missing_submit_button_returns_manual _ _ rfl rfl (by decide) (by decide) (by decide)

/-- C9: when the image batch yields zero successes, `publish_to_xiaohongshu`
substitutes the bundled placeholder when it exists and continues into the
browser run with it; otherwise it raises the fatal no-media `ValueError`
with an empty trace — no browser is launched. -/
theorem zero_success_placeholder_or_fatal (title content : String)
    (results : List DownloadResult) (sd : Bool) (env : Env)
    (h : local_image_paths results = []) :
    publish_to_xiaohongshu title content results true sd env =
      publish_with_playwright ⟨title, content, [test_lemon_path], none, [], sd⟩ env ∧
    publish_to_xiaohongshu title content results false sd env =
      (Outcome.valueError zeroDownloadMsg, []) ∧
    Ev.launchBrowser ∉ (publish_to_xiaohongshu title content results false sd env).2 := by
  refine ⟨?_, ?_, ?_⟩ <;>
    · unfold publish_to_xiaohongshu imageFallbackPlan
      rw [h]
      simp

/-- Witness for C9 at a batch whose single item failed. -/
theorem zero_success_placeholder_or_fatal_witness :
    publish_to_xiaohongshu "t" "c" [DownloadResult.failed] true false ⟨[], true, true, none⟩ =
      publish_with_playwright ⟨"t", "c", [test_lemon_path], none, [], false⟩
        ⟨[], true, true, none⟩ :=
  (zero_success_placeholder_or_fatal "t" "c" [DownloadResult.failed] false
    ⟨[], true, true, none⟩ (by decide)).1

/-- C10: in image mode with no `input[type="file"]` on the composer page,
the run raises `RuntimeError` and ends in failure (error screenshot taken,
no normal return) — unlike the degraded-but-continue selector misses. -/
theorem image_mode_missing_file_input_fatal (args : Args) (env : Env)
    (hlogin : env.loginOk = true) (hv : args.video_path = none)
    (hne : args.image_paths ≠ []) (hfile : domCount env.dom fileInputSel = 0) :
    (publish_with_playwright args env).1 = Outcome.runtimeError noFileInputMsg ∧
    ((publish_with_playwright args env).1).isOk = false ∧
    Ev.screenshot "error" ∈ (publish_with_playwright args env).2 := by
  rw [run_image_err args env hlogin hv hne hfile]
  refine ⟨rfl, rfl, ?_⟩
  simp

/-- Witness for C10: image mode against a DOM with no file input raises. -/
theorem image_mode_missing_file_input_fatal_witness :
    (publish_with_playwright ⟨"t", "c", ["a.jpg"], none, [], false⟩
       ⟨[], true, true, none⟩).1 = Outcome.runtimeError noFileInputMsg ∧
    ((publish_with_playwright ⟨"t", "c", ["a.jpg"], none, [], false⟩
       ⟨[], true, true, none⟩).1).isOk = false ∧
    Ev.screenshot "error" ∈
      (publish_with_playwright ⟨"t", "c", ["a.jpg"], none, [], false⟩
       ⟨[], true, true, none⟩).2 :=
  image_mode_missing_file_input_fatal _ _ rfl rfl (by decide) (by decide)

/-- C2 is refuted on the login-failure path: the code closes the browser
explicitly before raising (publish_playwright.py line 121) and the
`finally` block closes it again (line 307), so the browser-close operation
is invoked twice, not exactly once. -/
theorem close_invoked_twice_on_login_failure :
    countEvent Ev.closeBrowser
      (publish_with_playwright ⟨"t", "c", ["a.jpg"], none, [], false⟩
        ⟨[], false, true, none⟩).2 = 2 := by decide

/-- C2 (amended): for every run that launches a browser, the browser-close
operation is invoked exactly once — except the login-failure path, where
the explicit close before the raise plus the `finally` close make it
twice; the pre-launch no-media `ValueError` path never opens a browser and
invokes close zero times. -/
theorem cleanup_close_count (args : Args) (env : Env) :
    countEvent Ev.closeBrowser (publish_with_playwright args env).2 =
      if args.image_paths = [] ∧ args.video_path = none then 0
      else if env.loginOk = false then 2
      else 1 := by
  by_cases hm : args.image_paths = [] ∧ args.video_path = none
  · have hrun : publish_with_playwright args env = (Outcome.valueError noMediaMsg, []) := by
      unfold publish_with_playwright
      rw [if_pos hm]
    rw [hrun, if_pos hm]
    rfl
  · rw [if_neg hm]
    by_cases hl : env.loginOk = false
    · rw [run_login_failed args env hm hl, if_pos hl]
      decide
    · rw [if_neg hl]
      have hl' : env.loginOk = true := by
        cases h : env.loginOk
        · exact absurd h hl
        · rfl
      rcases hup : uploadPhase env args with ⟨o, evs⟩ | upEvs
      · have hrun : publish_with_playwright args env =
            (o, Ev.launchBrowser :: Ev.goto publishUrl :: Ev.waitMs 3000 ::
                evs ++ [Ev.screenshot "error", Ev.closeBrowser]) := by
          unfold publish_with_playwright
          rw [if_neg hm, hl', if_neg (by simp), hup]
        rw [hrun]
        have h0 := countClose_uploadPhase_err env args o evs hup
        simp [countEvent_cons, countEvent_append, countEvent_nil, h0]
      · have hrun : publish_with_playwright args env =
            ((submitPhase env args.save_draft).1,
             Ev.launchBrowser :: Ev.goto publishUrl :: Ev.waitMs 3000 ::
             upEvs ++ [Ev.waitMs 3000] ++ fillTitlePhase env args.title
             ++ fillContentPhase env args.content
             ++ [Ev.waitMs 2000, Ev.screenshot "before_publish"]
             ++ (submitPhase env args.save_draft).2 ++ [Ev.closeBrowser]) := by
          unfold publish_with_playwright
          rw [if_neg hm, hl', if_neg (by simp), hup]
        rw [hrun]
        have h0 := countClose_uploadPhase_ok env args upEvs hup
        have h1 := countClose_fillTitlePhase env args.title
        have h2 := countClose_fillContentPhase env args.content
        have h3 := countClose_submitPhase env args.save_draft
        simp [countEvent_cons, countEvent_append, countEvent_nil, h0, h1, h2, h3]

/-- C7: selector-resolution misses degrade, never abort. Part one: in image
mode, when the upload-tab selectors, every title candidate and every
content candidate all miss, the run still returns normally and each miss
leaves its logged warning in the trace. Part two: in video mode, a missed
cover input (no dedicated cover selector and only one generic file input)
leaves its logged skip in the trace and the run still returns normally. -/
theorem selector_miss_degrades_not_aborts :
    (∀ (args : Args) (env : Env),
      env.loginOk = true → args.video_path = none → args.image_paths ≠ [] →
      0 < domCount env.dom fileInputSel →
      domCount env.dom tabImageSel = 0 → domCount env.dom tabImageAltSel = 0 →
      resolveSelector env.dom title_selectors = none →
      resolveSelector env.dom content_selectors = none →
      ((publish_with_playwright args env).1).isOk = true ∧
      Ev.warn warnNoImageTabMsg ∈ (publish_with_playwright args env).2 ∧
      Ev.warn warnNoTitleMsg ∈ (publish_with_playwright args env).2 ∧
      Ev.warn warnNoContentMsg ∈ (publish_with_playwright args env).2) ∧
    (∀ (args : Args) (env : Env) (v : String),
      env.loginOk = true → args.video_path = some v →
      args.cover_image_paths ≠ [] →
      domCount env.dom fileInputSel = 1 →
      resolveSelector env.dom cover_selectors = none →
      ((publish_with_playwright args env).1).isOk = true ∧
      Ev.warn warnNoCoverMsg ∈ (publish_with_playwright args env).2) := by
  constructor
  · intro args env hlogin hv hne hfile htab1 htab2 htitle hcontent
    rw [run_image_ok args env hlogin hv hne hfile]
    have htab : imageTabEvs env = [Ev.warn warnNoImageTabMsg] := by
      unfold imageTabEvs
      rw [if_neg (by simp [htab1]), if_neg (by simp [htab2])]
    have ht : fillTitlePhase env args.title = [Ev.warn warnNoTitleMsg] := by
      unfold fillTitlePhase
      rw [htitle]
    have hc : fillContentPhase env args.content = [Ev.warn warnNoContentMsg] := by
      unfold fillContentPhase
      rw [hcontent]
    refine ⟨submitPhase_isOk env args.save_draft, ?_, ?_, ?_⟩ <;> simp [htab, ht, hc]
  · intro args env v hlogin hv hcov hfile hcovsel
    rw [run_video_ok args env v hlogin hv (by omega)]
    have hcu : coverUploadEvs env args.cover_image_paths = [Ev.warn warnNoCoverMsg] := by
      cases hc : args.cover_image_paths with
      | nil => exact absurd hc hcov
      | cons c cr =>
        simp only [coverUploadEvs, hcovsel]
        rw [if_neg (by omega)]
    refine ⟨submitPhase_isOk env args.save_draft, ?_⟩
    simp [hcu]

/-- Witness for C7: a run where every title, content and tab selector
misses still returns normally, and a video run with a missed cover input
still returns normally. -/
theorem selector_miss_degrades_not_aborts_witness :
    (((publish_with_playwright ⟨"t", "c", ["a.jpg"], none, [], false⟩
        ⟨[(fileInputSel, 1)], true, true, none⟩).1).isOk = true ∧
      Ev.warn warnNoImageTabMsg ∈ (publish_with_playwright ⟨"t", "c", ["a.jpg"], none, [], false⟩
        ⟨[(fileInputSel, 1)], true, true, none⟩).2) ∧
    (((publish_with_playwright ⟨"t", "c", [], some "v.mp4", ["c.jpg"], false⟩
        ⟨[(fileInputSel, 1)], true, true, none⟩).1).isOk = true ∧
      Ev.warn warnNoCoverMsg ∈ (publish_with_playwright ⟨"t", "c", [], some "v.mp4", ["c.jpg"], false⟩
        ⟨[(fileInputSel, 1)], true, true, none⟩).2) := by
  have h1 := selector_miss_degrades_not_aborts.1
    ⟨"t", "c", ["a.jpg"], none, [], false⟩ ⟨[(fileInputSel, 1)], true, true, none⟩
    rfl rfl (by decide) (by decide) (by decide) (by decide) (by decide) (by decide)
  have h2 := selector_miss_degrades_not_aborts.2
    ⟨"t", "c", [], some "v.mp4", ["c.jpg"], false⟩ ⟨[(fileInputSel, 1)], true, true, none⟩
    "v.mp4" rfl rfl (by decide) (by decide) (by decide)
  exact ⟨⟨h1.1, h1.2.1⟩, ⟨h2.1, h2.2⟩⟩

/-- C8: in draft mode with a resolved draft button, after the post-submit
screenshot the run performs the hold loop — 30 ten-second polls (300
seconds) when the page is never closed, ending early at the poll where the
page is closed externally; with `save_draft = false` no run ever performs
a ten-second hold wait. -/
theorem draft_hold_vs_immediate :
    (∀ (args : Args) (env : Env),
      args.save_draft = true → env.loginOk = true →
      args.video_path = none → args.image_paths ≠ [] →
      0 < domCount env.dom fileInputSel →
      0 < domCount env.dom draftBtnSel →
      countEvent (Ev.waitMs 10000) (publish_with_playwright args env).2 =
        holdPollCount env.pageClosedAtPoll) ∧
    (∀ (args : Args) (env : Env),
      args.save_draft = false →
      countEvent (Ev.waitMs 10000) (publish_with_playwright args env).2 = 0) := by
  constructor
  · intro args env hd hlogin hv hne hfile hbtn
    rw [run_image_ok args env hlogin hv hne hfile]
    have hsel : submitSel env args.save_draft = draftBtnSel := by
      unfold submitSel
      rw [hd]
      rfl
    have hsub : (submitPhase env args.save_draft).2 =
        [Ev.clickSel draftBtnSel, Ev.waitMs 8000, Ev.screenshot (submitLabel args.save_draft)]
        ++ draftHoldLoop env 30 0 := by
      unfold submitPhase
      rw [hsel, if_pos hbtn, hd]
      rfl
    have h1 := count10_imageTabEvs env
    have h2 := count10_fillTitlePhase env args.title
    have h3 := count10_fillContentPhase env args.content
    simp [countEvent_cons, countEvent_append, countEvent_nil, h1, h2, h3, hsub,
          count10_draftHold30]
  · intro args env hd
    have hsub : countEvent (Ev.waitMs 10000) (submitPhase env args.save_draft).2 = 0 := by
      unfold submitPhase
      rw [hd]
      split <;> simp [countEvent, List.countP_append, List.countP_cons]
    by_cases hm : args.image_paths = [] ∧ args.video_path = none
    · have hrun : publish_with_playwright args env = (Outcome.valueError noMediaMsg, []) := by
        unfold publish_with_playwright
        rw [if_pos hm]
      rw [hrun]
      rfl
    · by_cases hl : env.loginOk = false
      · rw [run_login_failed args env hm hl]
        decide
      · have hl' : env.loginOk = true := by
          cases h : env.loginOk
          · exact absurd h hl
          · rfl
        rcases hup : uploadPhase env args with ⟨o, evs⟩ | upEvs
        · have hrun : publish_with_playwright args env =
              (o, Ev.launchBrowser :: Ev.goto publishUrl :: Ev.waitMs 3000 ::
                  evs ++ [Ev.screenshot "error", Ev.closeBrowser]) := by
            unfold publish_with_playwright
            rw [if_neg hm, hl', if_neg (by simp), hup]
          rw [hrun]
          have h0 := count10_uploadPhase_err env args o evs hup
          simp [countEvent_cons, countEvent_append, countEvent_nil, h0]
        · have hrun : publish_with_playwright args env =
              ((submitPhase env args.save_draft).1,
               Ev.launchBrowser :: Ev.goto publishUrl :: Ev.waitMs 3000 ::
               upEvs ++ [Ev.waitMs 3000] ++ fillTitlePhase env args.title
               ++ fillContentPhase env args.content
               ++ [Ev.waitMs 2000, Ev.screenshot "before_publish"]
               ++ (submitPhase env args.save_draft).2 ++ [Ev.closeBrowser]) := by
            unfold publish_with_playwright
            rw [if_neg hm, hl', if_neg (by simp), hup]
          rw [hrun]
          have h0 := count10_uploadPhase_ok env args upEvs hup
          have h1 := count10_fillTitlePhase env args.title
          have h2 := count10_fillContentPhase env args.content
          simp [countEvent_cons, countEvent_append, countEvent_nil, h0, h1, h2, hsub]

/-- Witness for C8: a draft run whose page is never closed performs 30
ten-second polls; closing the page at poll 5 cuts the hold to 5; a
non-draft run performs none. -/
theorem draft_hold_vs_immediate_witness :
    countEvent (Ev.waitMs 10000)
      (publish_with_playwright ⟨"t", "c", ["a.jpg"], none, [], true⟩
        ⟨[(fileInputSel, 1), (draftBtnSel, 1)], true, true, none⟩).2 = holdPollCount none ∧
    countEvent (Ev.waitMs 10000)
      (publish_with_playwright ⟨"t", "c", ["a.jpg"], none, [], true⟩
        ⟨[(fileInputSel, 1), (draftBtnSel, 1)], true, true, some 5⟩).2 = holdPollCount (some 5) ∧
    countEvent (Ev.waitMs 10000)
      (publish_with_playwright ⟨"t", "c", ["a.jpg"], none, [], false⟩
        ⟨[(fileInputSel, 1)], true, true, none⟩).2 = 0 :=
  ⟨draft_hold_vs_immediate.1 ⟨"t", "c", ["a.jpg"], none, [], true⟩
      ⟨[(fileInputSel, 1), (draftBtnSel, 1)], true, true, none⟩
      rfl rfl rfl (by decide) (by decide) (by decide),
   draft_hold_vs_immediate.1 ⟨"t", "c", ["a.jpg"], none, [], true⟩
      ⟨[(fileInputSel, 1), (draftBtnSel, 1)], true, true, some 5⟩
      rfl rfl rfl (by decide) (by decide) (by decide),
   draft_hold_vs_immediate.2 ⟨"t", "c", ["a.jpg"], none, [], false⟩
      ⟨[(fileInputSel, 1)], true, true, none⟩ rfl⟩
